import Mathlib

/-!
Verification of the GitHub repository-creation tool
(`Github_repoo_creator.py`) against its specification.

The program is embedded shallowly: every external interaction (subprocess
calls to the `gh` helper CLI, HTTPS calls through `requests`, console
input, clipboard) is resolved by a pre-supplied environment `Env`, and a
run produces a result, a final session, a trace of the external calls it
made, and the list of status lines it printed.  Decorative ruler and
banner prints are not tracked; every `[检测]`, `[提示]`, `[成功]`,
`[错误]`, `[警告]` line and the clone-URL line are tracked verbatim.
-/

set_option maxHeartbeats 1000000

namespace RepoCreator

/-- Python `str.strip()` as used by the source on console input
(whitespace stripped from both ends). -/
def pyStrip (s : String) : String :=
  ⟨((s.data.dropWhile Char.isWhitespace).reverse.dropWhile
      Char.isWhitespace).reverse⟩

/-- Python `str.upper()` as used by the source on the Y/N answer:
uppercase every character (the source only compares against the basic
latin letter N). -/
def pyUpper (s : String) : String := ⟨s.data.map Char.toUpper⟩

/-- Python truthiness of an optional string (`not x` is true for `None`
and for the empty string). -/
def pyFalsyOpt : Option String → Bool
  | none => true
  | some s => s.isEmpty

/-- Python rendering of an optional string inside an f-string
(`None` prints as the text `None`). -/
def pyOptStr : Option String → String
  | some s => s
  | none => "None"

/-- An HTTP interaction through `requests`: `none` models a raised
`RequestException`; `some (status, field)` models a response with the
given status code whose relevant JSON field (`login` for the identity
call, `message` for the creation call) may be absent. -/
abbrev HttpResp := Option (Nat × Option String)

/-- The environment of one interactive run: the outcome of every
external interaction the program can make. -/
structure Env where
  /-- `gh --version` exits 0 (no `FileNotFoundError`, no timeout). -/
  ghVersionOk : Bool
  /-- `gh auth status` exits 0. -/
  ghAuthOk : Bool
  /-- raw console input at the Y/N helper-login prompt. -/
  loginChoiceInput : String
  /-- `gh auth login` exits 0. -/
  ghLoginOk : Bool
  /-- `gh api user --jq .login`: `none` models a timeout,
  `some (rc, stdout)` a completed call. -/
  ghUserResult : Option (Nat × String)
  /-- raw console input at the personal-access-token prompt. -/
  tokenInput : String
  /-- `GET https://api.github.com/user` (status, optional login field). -/
  identityResp : HttpResp
  /-- rendered exception text when the identity call raises. -/
  identityErrText : String
  /-- raw console input at the repository-name prompt. -/
  repoNameInput : String
  /-- `gh repo create ...`: `none` models a timeout,
  `some (rc, stderr)` a completed call. -/
  ghCreateResult : Option (Nat × String)
  /-- `POST https://api.github.com/user/repos` (status, optional message
  field). -/
  apiCreateResp : HttpResp
  /-- rendered exception text when the creation call raises. -/
  apiCreateErrText : String
  /-- `pyperclip` imported successfully. -/
  clipboardAvailable : Bool
  /-- `pyperclip.copy` does not raise. -/
  clipboardOk : Bool
  /-- rendered exception text when `pyperclip.copy` raises. -/
  clipboardErrText : String

/-- The JSON body sent by `create_repo_with_api`. -/
structure ApiRepoBody where
  name : String
  is_private : Bool
  auto_init : Bool
  description : Option String
deriving DecidableEq

/-- One external interaction of the program, in program order. -/
inductive Event where
  /-- subprocess `gh --version` (presence probe, from `__init__`). -/
  | ghVersionProbe
  /-- subprocess `gh auth status`. -/
  | ghAuthCheck
  /-- console input at the Y/N helper-login prompt. -/
  | promptLoginChoice
  /-- subprocess `gh auth login`. -/
  | ghLoginCall
  /-- subprocess `gh api user --jq .login`. -/
  | ghUserQuery
  /-- console input at the personal-access-token prompt. -/
  | promptToken
  /-- `GET /user` with the given token. -/
  | apiUserGet (token : String)
  /-- console input at the repository-name prompt. -/
  | promptRepoName
  /-- subprocess `gh repo create` with the given argument list. -/
  | ghRepoCreate (cmd : List String)
  /-- `POST /user/repos` with the given token and JSON body. -/
  | apiRepoPost (token : Option String) (body : ApiRepoBody)
  /-- `pyperclip.copy` of the given URL. -/
  | clipboardCopy (url : String)
deriving DecidableEq

/-- Is the event an invocation of a helper (`gh`) subcommand other than
the initial presence probe? -/
def Event.isHelperSub : Event → Bool
  | .ghAuthCheck => true
  | .ghLoginCall => true
  | .ghUserQuery => true
  | .ghRepoCreate _ => true
  | .ghVersionProbe => false
  | .promptLoginChoice => false
  | .promptToken => false
  | .apiUserGet _ => false
  | .promptRepoName => false
  | .apiRepoPost _ _ => false
  | .clipboardCopy _ => false

/-- Is the event a repository-creation call (either transport)? -/
def Event.isCreation : Event → Bool
  | .ghRepoCreate _ => true
  | .apiRepoPost _ _ => true
  | .ghVersionProbe => false
  | .ghAuthCheck => false
  | .promptLoginChoice => false
  | .ghLoginCall => false
  | .ghUserQuery => false
  | .promptToken => false
  | .apiUserGet _ => false
  | .promptRepoName => false
  | .clipboardCopy _ => false

/-- The mutable state of a `GitHubRepoCreator` instance. -/
structure Session where
  use_gh_cli : Bool
  token : Option String
  username : Option String
deriving DecidableEq

/-- `__init__`: probe for the helper CLI, no credential yet. -/
def initSession (env : Env) : Session :=
  { use_gh_cli := env.ghVersionOk, token := none, username := none }

/-- `check_gh_cli`: exit status of the `gh --version` probe, with
`FileNotFoundError` and timeouts folded into `false`. -/
def check_gh_cli (env : Env) : Bool := env.ghVersionOk

/-- `check_gh_auth`: exit status of `gh auth status`, timeouts folded
into `false`. -/
def check_gh_auth (env : Env) : Bool := env.ghAuthOk

/-- `gh_login`: whether `gh auth login` exited 0. -/
def gh_login (env : Env) : Bool := env.ghLoginOk

/-- The acceptance test at the Y/N helper-login prompt:
`choice = input(...).strip().upper()` followed by `choice != 'N'`. -/
def acceptsHelperLogin (raw : String) : Bool :=
  pyUpper (pyStrip raw) != "N"

/-- `get_username_from_gh`: run `gh api user --jq .login`; on exit 0
return the stripped standard output, otherwise (nonzero exit or
timeout) `None`. -/
def get_username_from_gh (env : Env) : Option String :=
  match env.ghUserResult with
  | none => none
  | some (rc, out) => if rc == 0 then some (pyStrip out) else none

/-- `get_token_from_input`: strip the entered text; an empty result
becomes `None`. -/
def get_token_from_input (env : Env) : Option String :=
  let token := pyStrip env.tokenInput
  if token.isEmpty then none else some token

/-- `get_username_from_token`: `GET /user` with the token.  Status 200
yields the body's `login` field; a 200 body without a `login` field
raises an uncaught `KeyError` (modelled as `Except.error`); any other
status or a `RequestException` yields `None` after printing an error
line. -/
def get_username_from_token (env : Env) (token : String) :
    Except Unit (Option String) × List Event × List String :=
  match env.identityResp with
  | none =>
      (.ok none, [.apiUserGet token],
       ["[错误] 网络请求失败: " ++ env.identityErrText])
  | some (status, loginField) =>
      if status == 200 then
        match loginField with
        | some l => (.ok (some l), [.apiUserGet token], [])
        | none => (.error (), [.apiUserGet token], [])
      else
        (.ok none, [.apiUserGet token],
         ["[错误] 获取用户信息失败: " ++ toString status])

/-- The argument list built by `create_repo_with_gh` (visibility flag
always, description flag when the description is truthy). -/
def ghCmd (repo_name description : String) (is_private : Bool) :
    List String :=
  ["gh", "repo", "create", repo_name] ++
    [if is_private then "--private" else "--public"] ++
    (if description.isEmpty then [] else ["--description", description])

/-- `create_repo_with_gh`: run `gh repo create`; success is exit status
0, the error component is the call's standard error (or the fixed
timeout text). -/
def create_repo_with_gh (env : Env) (repo_name description : String)
    (is_private : Bool) : (Bool × Option String) × List Event :=
  match env.ghCreateResult with
  | none =>
      ((false, some "命令执行超时"),
       [.ghRepoCreate (ghCmd repo_name description is_private)])
  | some (rc, stderrText) =>
      ((rc == 0, some stderrText),
       [.ghRepoCreate (ghCmd repo_name description is_private)])

/-- The JSON body built by `create_repo_with_api`:
`{name, private, auto_init: false}` plus `description` when truthy. -/
def apiBody (repo_name description : String) (is_private : Bool) :
    ApiRepoBody :=
  { name := repo_name, is_private := is_private, auto_init := false,
    description := if description.isEmpty then none else some description }

/-- `create_repo_with_api`: `POST /user/repos` with `apiBody`.  Status
201 is success; any other status yields an error text holding the
status code and the body's `message` field (default `未知错误`); a
`RequestException` yields its own error text. -/
def create_repo_with_api (env : Env) (token : Option String)
    (repo_name description : String) (is_private : Bool) :
    (Bool × Option String) × List Event :=
  match env.apiCreateResp with
  | none =>
      ((false, some ("网络请求失败: " ++ env.apiCreateErrText)),
       [.apiRepoPost token (apiBody repo_name description is_private)])
  | some (status, msgField) =>
      if status == 201 then
        ((true, none),
         [.apiRepoPost token (apiBody repo_name description is_private)])
      else
        ((false, some ("创建失败 (" ++ toString status ++ "): " ++
            msgField.getD "未知错误")),
         [.apiRepoPost token (apiBody repo_name description is_private)])

instance : DecidableEq (Except Unit Bool) := fun a b =>
  match a, b with
  | .ok x, .ok y =>
      if h : x = y then .isTrue (h ▸ rfl)
      else .isFalse (fun hc => h (Except.ok.inj hc))
  | .error x, .error y => .isTrue (by cases x; cases y; rfl)
  | .ok _, .error _ => .isFalse (fun hc => Except.noConfusion hc)
  | .error _, .ok _ => .isFalse (fun hc => Except.noConfusion hc)

/-- The result of `setup_auth`: `Except.error` models an uncaught
exception escaping to `main`. -/
structure AuthOut where
  result : Except Unit Bool
  session : Session
  trace : List Event
  output : List String
deriving DecidableEq

/-- The token branch at the end of `setup_auth` (reached when the helper
CLI is absent, when the login offer is declined, or when the helper
login fails): collect a token, validate it, store the username. -/
def setup_auth_token_path (env : Env) (s : Session) : AuthOut :=
  match get_token_from_input env with
  | none =>
      { result := .ok false, session := { s with token := none },
        trace := [.promptToken],
        output := ["[错误] 未配置任何认证方式"] }
  | some t =>
      let g := get_username_from_token env t
      match g.1 with
      | .error e =>
          { result := .error e, session := { s with token := some t },
            trace := .promptToken :: g.2.1, output := g.2.2 }
      | .ok r =>
          if pyFalsyOpt r then
            { result := .ok false,
              session := { s with token := some t, username := r },
              trace := .promptToken :: g.2.1,
              output := g.2.2 ++ ["[错误] Token 验证失败"] }
          else
            { result := .ok true,
              session := { s with token := some t, username := r },
              trace := .promptToken :: g.2.1,
              output := g.2.2 ++ ["[成功] 已验证用户: " ++ pyOptStr r] }

/-- `setup_auth`: resolve a credential through the helper CLI when it is
installed (already-authenticated fast path, else an offered interactive
login), falling through to the token branch otherwise. -/
def setup_auth (env : Env) (s : Session) : AuthOut :=
  if s.use_gh_cli then
    if check_gh_auth env then
      { result := .ok true,
        session := { s with username := get_username_from_gh env },
        trace := [.ghAuthCheck, .ghUserQuery],
        output := ["[检测] 已安装 GitHub CLI", "[检测] GitHub CLI 已登录"] }
    else
      if acceptsHelperLogin env.loginChoiceInput then
        if gh_login env then
          { result := .ok true,
            session := { s with username := get_username_from_gh env },
            trace := [.ghAuthCheck, .promptLoginChoice, .ghLoginCall,
                      .ghUserQuery],
            output := ["[检测] 已安装 GitHub CLI", "[检测] GitHub CLI 未登录",
                       "[提示] 正在启动 GitHub CLI 登录流程..."] }
        else
          let t := setup_auth_token_path env s
          { t with
            trace := [.ghAuthCheck, .promptLoginChoice, .ghLoginCall] ++
              t.trace,
            output := ["[检测] 已安装 GitHub CLI", "[检测] GitHub CLI 未登录",
                       "[提示] 正在启动 GitHub CLI 登录流程...",
                       "[错误] GitHub CLI 登录失败"] ++ t.output }
      else
        let t := setup_auth_token_path env s
        { t with
          trace := [.ghAuthCheck, .promptLoginChoice] ++ t.trace,
          output := ["[检测] 已安装 GitHub CLI", "[检测] GitHub CLI 未登录"] ++
            t.output }
  else
    let t := setup_auth_token_path env s
    { t with
      output := ["[提示] 未检测到 GitHub CLI",
                 "可以安装 GitHub CLI: https://cli.github.com/"] ++ t.output }

/-- `get_repo_info`: prompt for a repository name, strip it, reject an
empty result; description and visibility are fixed defaults. -/
structure RepoInfo where
  name : String
  description : String
  is_private : Bool
deriving DecidableEq

/-- `get_repo_info` as a function of the environment. -/
def get_repo_info (env : Env) : Option RepoInfo × List Event × List String :=
  let repo_name := pyStrip env.repoNameInput
  if repo_name.isEmpty then
    (none, [.promptRepoName], ["[错误] 仓库名称不能为空"])
  else
    (some { name := repo_name, description := "1.0", is_private := false },
     [.promptRepoName], [])

/-- The outcome of `create_repository` as observed by `main`:
`crashed` models an uncaught exception. -/
inductive RunResult where
  | ok (success : Bool)
  | crashed
deriving DecidableEq

/-- The observable behaviour of one run. -/
structure RunOut where
  result : RunResult
  session : Session
  trace : List Event
  output : List String
deriving DecidableEq

/-- The clipboard block at the end of `create_repository`. -/
def clipboardStep (env : Env) (url : String) : List Event × List String :=
  if env.clipboardAvailable then
    if env.clipboardOk then
      ([.clipboardCopy url], ["[成功] 仓库地址已复制到剪贴板!"])
    else
      ([.clipboardCopy url],
       ["[警告] 复制到剪贴板失败: " ++ env.clipboardErrText,
        "请手动复制上面的地址"])
  else
    ([], ["[提示] 请手动复制上面的地址"])

/-- The transport selection inside `create_repository`:
`if self.use_gh_cli and not self.token` chooses the helper CLI,
otherwise the direct API. -/
def creationStep (env : Env) (s : Session) (info : RepoInfo) :
    (Bool × Option String) × List Event :=
  if s.use_gh_cli && pyFalsyOpt s.token then
    create_repo_with_gh env info.name info.description info.is_private
  else
    create_repo_with_api env s.token info.name info.description
      info.is_private

/-- The information-echo block printed by `create_repository` before the
creation call. -/
def echoBlock (info : RepoInfo) : List String :=
  ["仓库名称: " ++ info.name,
   "仓库描述: " ++ info.description,
   "可见性: " ++ (if info.is_private then "私有" else "公开"),
   "[信息] 正在创建仓库..."]

/-- The clone URL constructed by `create_repository` on success
(an f-string, so a `None` username renders as the text `None`). -/
def cloneUrl (username : Option String) (name : String) : String :=
  "https://github.com/" ++ pyOptStr username ++ "/" ++ name ++ ".git"

/-- The part of `create_repository` after a successful `setup_auth`:
read the repository request, invoke one of the two transports, report
the clone URL and try the clipboard. -/
def afterAuth (env : Env) (a : AuthOut) : RunOut :=
  let g := get_repo_info env
  match g.1 with
  | none =>
      { result := .ok false, session := a.session,
        trace := a.trace ++ g.2.1, output := a.output ++ g.2.2 }
  | some info =>
      let c := creationStep env a.session info
      if c.1.1 then
        let url := cloneUrl a.session.username info.name
        let cl := clipboardStep env url
        { result := .ok true, session := a.session,
          trace := a.trace ++ g.2.1 ++ c.2 ++ cl.1,
          output := a.output ++ g.2.2 ++ echoBlock info ++
            ["[成功] 仓库创建成功!", "仓库地址: " ++ url] ++ cl.2 }
      else
        { result := .ok false, session := a.session,
          trace := a.trace ++ g.2.1 ++ c.2,
          output := a.output ++ g.2.2 ++ echoBlock info ++
            ["[错误] 仓库创建失败: " ++ pyOptStr c.1.2] }

/-- `create_repository`: the main flow — authenticate, then proceed
with `afterAuth`. -/
def create_repository (env : Env) (s : Session) : RunOut :=
  let a := setup_auth env s
  match a.result with
  | .error _ =>
      { result := .crashed, session := a.session, trace := a.trace,
        output := a.output }
  | .ok false =>
      { result := .ok false, session := a.session, trace := a.trace,
        output := a.output }
  | .ok true => afterAuth env a

/-- `main`: construct the creator (issuing the presence probe) and run
`create_repository`; the import-time clipboard warning is prepended. -/
def run (env : Env) : RunOut :=
  let r := create_repository env (initSession env)
  { r with
    trace := .ghVersionProbe :: r.trace,
    output := (if env.clipboardAvailable then []
               else ["[警告] pyperclip 模块未安装，将无法自动复制到剪贴板"]) ++
      r.output }

/-- The spec's `helperAuthenticated` session field, derived from the
probes: the helper is available and either was already authenticated or
was successfully logged in during this run. -/
def helperAuthenticated (env : Env) : Bool :=
  check_gh_cli env && (check_gh_auth env ||
    (acceptsHelperLogin env.loginChoiceInput && gh_login env))

/-- Whether credential resolution reaches the token branch: the helper
is absent, or it is present but unauthenticated and the login offer is
declined or the login fails. -/
def tokenPathReached (env : Env) : Bool :=
  !check_gh_cli env ||
    (!check_gh_auth env &&
      (!acceptsHelperLogin env.loginChoiceInput || !gh_login env))

/-- Is the session's username a present, non-empty string? -/
def usernameNonempty (s : Session) : Bool := !pyFalsyOpt s.username

/-! ### Structural lemmas about the token branch of `setup_auth` -/

lemma tokenPath_use (env : Env) (s : Session) :
    (setup_auth_token_path env s).session.use_gh_cli = s.use_gh_cli := by
  unfold setup_auth_token_path get_token_from_input get_username_from_token
  repeat' (first | split | dsimp only)

lemma tokenPath_trace_all (env : Env) (s : Session) :
    ((setup_auth_token_path env s).trace.all
      (fun e => !e.isHelperSub && !e.isCreation)) = true := by
  unfold setup_auth_token_path get_token_from_input get_username_from_token
  repeat' (first | split | dsimp only)
  all_goals rfl

lemma tokenPath_trace (env : Env) (s : Session) :
    ∀ e ∈ (setup_auth_token_path env s).trace,
      e.isHelperSub = false ∧ e.isCreation = false := by
  intro e he
  have h := List.all_eq_true.mp (tokenPath_trace_all env s) e he
  simp only [Bool.and_eq_true, Bool.not_eq_true'] at h
  exact h

lemma tokenPath_prompt (env : Env) (s : Session) :
    Event.promptToken ∈ (setup_auth_token_path env s).trace := by
  unfold setup_auth_token_path get_token_from_input get_username_from_token
  repeat' (first | split | dsimp only)
  all_goals exact List.mem_cons_self _ _

lemma tokenPath_ok (env : Env) (s : Session)
    (h : (setup_auth_token_path env s).result = .ok true) :
    ∃ u, u ≠ "" ∧ env.identityResp = some (200, some u) ∧
      (setup_auth_token_path env s).session.token =
        some (pyStrip env.tokenInput) ∧
      (pyStrip env.tokenInput).isEmpty = false ∧
      (setup_auth_token_path env s).session.username = some u := by
  revert h
  unfold setup_auth_token_path get_token_from_input get_username_from_token
  repeat' (first | split | dsimp only)
  all_goals intro h
  all_goals simp_all [pyFalsyOpt, pyOptStr, String.isEmpty_iff]
  rename_i tokOpt t respOpt status loginOpt u hstrip hst hresp hne
  refine ⟨u, hne, rfl, ?_, rfl⟩
  rw [Bool.eq_false_iff, ne_eq, String.isEmpty_iff, ← hstrip.2]
  exact hstrip.1

lemma tokenPath_no_helper_all (env : Env) (s : Session) :
    ((setup_auth_token_path env s).trace.all (fun e => !e.isHelperSub)) =
      true := by
  unfold setup_auth_token_path get_token_from_input get_username_from_token
  repeat' (first | split | dsimp only)
  all_goals rfl

lemma tokenPath_no_creation_all (env : Env) (s : Session) :
    ((setup_auth_token_path env s).trace.all (fun e => !e.isCreation)) =
      true := by
  unfold setup_auth_token_path get_token_from_input get_username_from_token
  repeat' (first | split | dsimp only)
  all_goals rfl

/-! ### Structural lemmas about `setup_auth` -/

lemma setupAuth_use (env : Env) (s : Session) :
    (setup_auth env s).session.use_gh_cli = s.use_gh_cli := by
  unfold setup_auth
  repeat' (first | split | dsimp only)
  all_goals first | rfl | exact tokenPath_use env s

lemma setupAuth_no_creation_all (env : Env) (s : Session) :
    ((setup_auth env s).trace.all (fun e => !e.isCreation)) = true := by
  unfold setup_auth
  repeat' (first | split | dsimp only)
  all_goals try simp only [List.all_append, tokenPath_no_creation_all,
    Bool.and_true]
  all_goals rfl

lemma setupAuth_no_creation (env : Env) (s : Session) :
    ∀ e ∈ (setup_auth env s).trace, e.isCreation = false := by
  intro e he
  have h := List.all_eq_true.mp (setupAuth_no_creation_all env s) e he
  simpa using h

lemma setupAuth_no_helper (env : Env) (s : Session) (h : s.use_gh_cli = false) :
    ((setup_auth env s).trace.all (fun e => !e.isHelperSub)) = true ∧
    Event.promptToken ∈ (setup_auth env s).trace := by
  unfold setup_auth
  simp only [h, Bool.false_eq_true, if_false]
  try dsimp only
  exact ⟨tokenPath_no_helper_all env s, tokenPath_prompt env s⟩

lemma setupAuth_tokenPath_eq (env : Env) (h : tokenPathReached env = true) :
    (setup_auth env (initSession env)).result =
      (setup_auth_token_path env (initSession env)).result ∧
    (setup_auth env (initSession env)).session =
      (setup_auth_token_path env (initSession env)).session := by
  revert h
  unfold tokenPathReached setup_auth initSession check_gh_cli check_gh_auth
    gh_login
  repeat' (first | split | dsimp only)
  all_goals intro h
  all_goals first | exact ⟨rfl, rfl⟩ | simp_all

lemma setupAuth_ok_cases (env : Env)
    (h : (setup_auth env (initSession env)).result = .ok true) :
    (helperAuthenticated env = true ∧ tokenPathReached env = false ∧
     (setup_auth env (initSession env)).session.token = none ∧
     (setup_auth env (initSession env)).session.username =
       get_username_from_gh env) ∨
    (helperAuthenticated env = false ∧ tokenPathReached env = true ∧
     ∃ u, u ≠ "" ∧ env.identityResp = some (200, some u) ∧
       (setup_auth env (initSession env)).session.token =
         some (pyStrip env.tokenInput) ∧
       (pyStrip env.tokenInput).isEmpty = false ∧
       (setup_auth env (initSession env)).session.username = some u) := by
  revert h
  unfold setup_auth initSession
  repeat' (first | split | dsimp only)
  all_goals intro h
  all_goals
    first
    | (left
       refine ⟨?_, ?_, rfl, rfl⟩ <;>
         simp_all [helperAuthenticated, tokenPathReached, check_gh_cli,
           check_gh_auth, gh_login])
    | (right
       obtain ⟨u, h1, h2, h3, h4, h5⟩ := tokenPath_ok env _ h
       refine ⟨?_, ?_, u, h1, h2, h3, h4, h5⟩ <;>
         simp_all [helperAuthenticated, tokenPathReached, check_gh_cli,
           check_gh_auth, gh_login])

/-! ### Structural lemmas about `create_repository` and `run` -/

lemma createRepo_crash (env : Env) (s : Session)
    (h : (setup_auth env s).result = .error ()) :
    create_repository env s =
      { result := .crashed, session := (setup_auth env s).session,
        trace := (setup_auth env s).trace,
        output := (setup_auth env s).output } := by
  unfold create_repository
  dsimp only
  rw [h]

lemma createRepo_authFail (env : Env) (s : Session)
    (h : (setup_auth env s).result = .ok false) :
    create_repository env s =
      { result := .ok false, session := (setup_auth env s).session,
        trace := (setup_auth env s).trace,
        output := (setup_auth env s).output } := by
  unfold create_repository
  dsimp only
  rw [h]

lemma createRepo_authOk (env : Env) (s : Session)
    (h : (setup_auth env s).result = .ok true) :
    create_repository env s = afterAuth env (setup_auth env s) := by
  unfold create_repository
  dsimp only
  rw [h]

lemma run_components (env : Env) :
    (run env).result = (create_repository env (initSession env)).result ∧
    (run env).session = (create_repository env (initSession env)).session ∧
    (run env).trace =
      .ghVersionProbe :: (create_repository env (initSession env)).trace ∧
    (run env).output =
      (if env.clipboardAvailable then []
       else ["[警告] pyperclip 模块未安装，将无法自动复制到剪贴板"]) ++
        (create_repository env (initSession env)).output :=
  ⟨rfl, rfl, rfl, rfl⟩

/-! ### Structural lemmas about `afterAuth` and `creationStep` -/

/-- The fixed `RepoInfo` produced by `get_repo_info` on a non-empty
name. -/
def mkInfo (env : Env) : RepoInfo :=
  { name := pyStrip env.repoNameInput, description := "1.0",
    is_private := false }

lemma get_repo_info_named (env : Env)
    (h : (pyStrip env.repoNameInput).isEmpty = false) :
    get_repo_info env = (some (mkInfo env), [.promptRepoName], []) := by
  unfold get_repo_info mkInfo
  simp [h]

lemma afterAuth_empty (env : Env) (a : AuthOut)
    (h : (pyStrip env.repoNameInput).isEmpty = true) :
    afterAuth env a =
      { result := .ok false, session := a.session,
        trace := a.trace ++ [.promptRepoName],
        output := a.output ++ ["[错误] 仓库名称不能为空"] } := by
  unfold afterAuth get_repo_info
  simp [h]

lemma afterAuth_success (env : Env) (a : AuthOut)
    (hname : (pyStrip env.repoNameInput).isEmpty = false)
    (hsucc : (creationStep env a.session (mkInfo env)).1.1 = true) :
    afterAuth env a =
      { result := .ok true, session := a.session,
        trace := a.trace ++ [.promptRepoName] ++
          (creationStep env a.session (mkInfo env)).2 ++
          (clipboardStep env
            (cloneUrl a.session.username (pyStrip env.repoNameInput))).1,
        output := a.output ++ echoBlock (mkInfo env) ++
          ["[成功] 仓库创建成功!",
           "仓库地址: " ++
             cloneUrl a.session.username (pyStrip env.repoNameInput)] ++
          (clipboardStep env
            (cloneUrl a.session.username (pyStrip env.repoNameInput))).2 } := by
  unfold afterAuth
  rw [get_repo_info_named env hname]
  dsimp only
  rw [if_pos hsucc]
  simp [mkInfo]

lemma afterAuth_failCreate (env : Env) (a : AuthOut)
    (hname : (pyStrip env.repoNameInput).isEmpty = false)
    (hfail : (creationStep env a.session (mkInfo env)).1.1 = false) :
    afterAuth env a =
      { result := .ok false, session := a.session,
        trace := a.trace ++ [.promptRepoName] ++
          (creationStep env a.session (mkInfo env)).2,
        output := a.output ++ echoBlock (mkInfo env) ++
          ["[错误] 仓库创建失败: " ++
            pyOptStr (creationStep env a.session (mkInfo env)).1.2] } := by
  unfold afterAuth
  rw [get_repo_info_named env hname]
  dsimp only
  rw [if_neg (by simp [hfail])]
  simp [mkInfo]

lemma creationStep_events (env : Env) (s : Session) (info : RepoInfo) :
    (creationStep env s info).2 =
      if s.use_gh_cli && pyFalsyOpt s.token then
        [.ghRepoCreate (ghCmd info.name info.description info.is_private)]
      else
        [.apiRepoPost s.token
          (apiBody info.name info.description info.is_private)] := by
  unfold creationStep create_repo_with_gh create_repo_with_api
  repeat' (first | split | dsimp only)

lemma apiCall_fail (env : Env) (tk : Option String) (n d : String)
    (p : Bool) (st : Nat) (fld : Option String)
    (hresp : env.apiCreateResp = some (st, fld)) (hst : st ≠ 201) :
    create_repo_with_api env tk n d p =
      ((false, some ("创建失败 (" ++ toString st ++ "): " ++
          fld.getD "未知错误")),
       [.apiRepoPost tk (apiBody n d p)]) := by
  unfold create_repo_with_api
  rw [hresp]
  simp [hst]

lemma clipboardStep_events (env : Env) (url : String) :
    ∀ e ∈ (clipboardStep env url).1, e = .clipboardCopy url := by
  unfold clipboardStep
  repeat' (first | split | dsimp only)
  all_goals simp

/-! ### Character-level facts for the login prompt -/

lemma char_ofNat_toNat (m : Nat) (h1 : 65 ≤ m) (h2 : m ≤ 90) :
    (Char.ofNat m).toNat = m := by
  interval_cases m <;> rfl

lemma char_toUpper_eq_N (c : Char) :
    c.toUpper = 'N' ↔ c = 'N' ∨ c = 'n' := by
  constructor
  · intro h
    unfold Char.toUpper at h
    dsimp only at h
    split at h
    · rename_i hc
      right
      have h78 : (Char.ofNat (c.toNat - 32)).toNat = 78 := by rw [h]; rfl
      have hv : (Char.ofNat (c.toNat - 32)).toNat = c.toNat - 32 :=
        char_ofNat_toNat (c.toNat - 32) (by omega) (by omega)
      have h110 : c.toNat = 110 := by omega
      apply Char.ext
      apply UInt32.toNat.inj
      exact h110
    · exact Or.inl h
  · rintro (rfl | rfl) <;> rfl

lemma map_toUpper_single (l : List Char) :
    l.map Char.toUpper = ['N'] ↔ l = ['N'] ∨ l = ['n'] := by
  cases l with
  | nil => simp
  | cons c cs =>
    cases cs with
    | nil => simp [char_toUpper_eq_N]
    | cons d ds => simp

/-! ### The claims -/

/-- C10: at the helper-login confirmation prompt, an input declines the
helper login exactly when its stripped form is the single letter `N` or
`n`; every other input (the empty string included) is treated as
acceptance. -/
theorem C10_login_prompt_decision (s : String) :
    acceptsHelperLogin s = false ↔ (pyStrip s = "N" ∨ pyStrip s = "n") := by
  unfold acceptsHelperLogin pyUpper
  constructor
  · intro h
    have h2 : (⟨(pyStrip s).data.map Char.toUpper⟩ : String) = "N" := by
      simpa [bne] using h
    have hd : (pyStrip s).data.map Char.toUpper = ['N'] :=
      congrArg String.data h2
    rcases (map_toUpper_single _).mp hd with h3 | h3
    · exact Or.inl (String.ext h3)
    · exact Or.inr (String.ext h3)
  · rintro (h | h) <;> rw [h] <;> rfl

/-- The environment of the C9 scenario: helper absent, token `abc123`,
identity endpoint answers 200 with login `alice`, repository name
`demo`, creation endpoint answers 201. -/
def env9 : Env :=
  { ghVersionOk := false, ghAuthOk := false, loginChoiceInput := "",
    ghLoginOk := false, ghUserResult := none, tokenInput := "abc123",
    identityResp := some (200, some "alice"), identityErrText := "",
    repoNameInput := "demo", ghCreateResult := none,
    apiCreateResp := some (201, none), apiCreateErrText := "",
    clipboardAvailable := false, clipboardOk := false,
    clipboardErrText := "" }

/-- C9: in the scenario of `env9` the API creation call is issued with
the JSON body `{name: demo, private: false, auto_init: false,
description: 1.0}` and the printed clone URL is
`https://github.com/alice/demo.git`; the run succeeds. -/
theorem C9_scenario :
    Event.apiRepoPost (some "abc123")
        { name := "demo", is_private := false, auto_init := false,
          description := some "1.0" } ∈ (run env9).trace ∧
    "仓库地址: https://github.com/alice/demo.git" ∈ (run env9).output ∧
    (run env9).result = .ok true := by decide

/-- An environment refuting C1: helper installed and authenticated, but
the helper user query exits nonzero, so the username stays `None`. -/
def envC1 : Env :=
  { ghVersionOk := true, ghAuthOk := true, loginChoiceInput := "",
    ghLoginOk := false, ghUserResult := some (1, ""), tokenInput := "",
    identityResp := none, identityErrText := "",
    repoNameInput := "demo", ghCreateResult := none,
    apiCreateResp := none, apiCreateErrText := "",
    clipboardAvailable := false, clipboardOk := false,
    clipboardErrText := "" }

/-- C1 (counterexample): a run reaching the Repository Creator step
(`setup_auth` returned True and the repository name `demo` is
non-empty) in which the Session's username is not a non-empty string:
the helper user query failed, leaving it `None`. -/
theorem C1_counterexample :
    (setup_auth envC1 (initSession envC1)).result = .ok true ∧
    (pyStrip envC1.repoNameInput).isEmpty = false ∧
    usernameNonempty (setup_auth envC1 (initSession envC1)).session =
      false := by decide

/-- C1 (amended): whenever `setup_auth` returns True, exactly one of
{helper-authenticated, token present} holds in the Session; the
username is a non-empty string whenever the token was collected, while
on the helper path it equals the helper user-query result, which may be
`None` or empty when that query fails. -/
theorem C1_invariant_amended (env : Env)
    (hauth : (setup_auth env (initSession env)).result = .ok true) :
    (helperAuthenticated env =
      !((setup_auth env (initSession env)).session.token.isSome)) ∧
    ((setup_auth env (initSession env)).session.token.isSome = true →
      usernameNonempty (setup_auth env (initSession env)).session =
        true) ∧
    (helperAuthenticated env = true →
      (setup_auth env (initSession env)).session.username =
        get_username_from_gh env) := by
  rcases setupAuth_ok_cases env hauth with
    ⟨h1, h2, h3, h4⟩ | ⟨h1, h2, u, hu, hresp, h3, h4, h5⟩
  · refine ⟨?_, ?_, fun _ => h4⟩
    · rw [h1, h3]; rfl
    · intro hx
      rw [h3] at hx
      cases hx
  · refine ⟨?_, ?_, ?_⟩
    · rw [h1, h3]; rfl
    · intro _
      have he : u.isEmpty = false := by
        rw [Bool.eq_false_iff, ne_eq, String.isEmpty_iff]
        exact hu
      simp [usernameNonempty, pyFalsyOpt, h5, he]
    · intro hh
      rw [h1] at hh
      cases hh

/-- Witness for C1 (amended) at the concrete environment `env9`. -/
theorem C1_invariant_amended_witness :
    (helperAuthenticated env9 =
      !((setup_auth env9 (initSession env9)).session.token.isSome)) ∧
    ((setup_auth env9 (initSession env9)).session.token.isSome = true →
      usernameNonempty (setup_auth env9 (initSession env9)).session =
        true) ∧
    (helperAuthenticated env9 = true →
      (setup_auth env9 (initSession env9)).session.username =
        get_username_from_gh env9) :=
  C1_invariant_amended env9 (by decide)

lemma tokenPath_200 (env : Env) (s : Session)
    (htok : (pyStrip env.tokenInput).isEmpty = false) (l : String)
    (hresp : env.identityResp = some (200, some l)) :
    (setup_auth_token_path env s).session.username = some l := by
  unfold setup_auth_token_path get_token_from_input get_username_from_token
  rw [hresp]
  try dsimp only
  simp only [htok, Bool.false_eq_true, if_false, beq_self_eq_true,
    if_true]
  try dsimp only
  split <;> rfl

lemma tokenPath_failStatus (env : Env) (s : Session)
    (htok : (pyStrip env.tokenInput).isEmpty = false) (st : Nat)
    (fld : Option String) (hresp : env.identityResp = some (st, fld))
    (hst : st ≠ 200) :
    (setup_auth_token_path env s).result = .ok false := by
  unfold setup_auth_token_path get_token_from_input get_username_from_token
  rw [hresp]
  try dsimp only
  simp only [htok, Bool.false_eq_true, if_false]
  rw [if_neg (by simp [hst])]
  rfl

lemma tokenPath_failNet (env : Env) (s : Session)
    (htok : (pyStrip env.tokenInput).isEmpty = false)
    (hresp : env.identityResp = none) :
    (setup_auth_token_path env s).result = .ok false := by
  unfold setup_auth_token_path get_token_from_input get_username_from_token
  rw [hresp]
  try dsimp only
  simp only [htok, Bool.false_eq_true, if_false]
  rfl

/-- The environment witnessing C3: authentication as in `env9`, but a
whitespace-only repository name. -/
def env3 : Env :=
  { ghVersionOk := false, ghAuthOk := false, loginChoiceInput := "",
    ghLoginOk := false, ghUserResult := none, tokenInput := "abc123",
    identityResp := some (200, some "alice"), identityErrText := "",
    repoNameInput := "   ", ghCreateResult := none,
    apiCreateResp := some (201, none), apiCreateErrText := "",
    clipboardAvailable := false, clipboardOk := false,
    clipboardErrText := "" }

/-- C3: in every run whose repository-name input strips to the empty
string (the prompt is reached because authentication succeeded), no
creation call of either transport is attempted, the validation-failure
line is reported, and the run's outcome is failure. -/
theorem C3_empty_name (env : Env)
    (hauth : (setup_auth env (initSession env)).result = .ok true)
    (hname : (pyStrip env.repoNameInput).isEmpty = true) :
    (run env).result = .ok false ∧
    (∀ e ∈ (run env).trace, e.isCreation = false) ∧
    "[错误] 仓库名称不能为空" ∈ (run env).output := by
  obtain ⟨hres, hsess, htr, hout⟩ := run_components env
  rw [createRepo_authOk env _ hauth] at hres htr hout
  rw [afterAuth_empty env _ hname] at hres htr hout
  refine ⟨by rw [hres], ?_, ?_⟩
  · intro e he
    rw [htr] at he
    rcases List.mem_cons.mp he with rfl | he2
    · rfl
    · rcases List.mem_append.mp he2 with he3 | he4
      · exact setupAuth_no_creation env _ e he3
      · rw [List.mem_singleton.mp he4]
        rfl
  · rw [hout]
    simp

/-- Witness for C3 at the concrete environment `env3`. -/
theorem C3_empty_name_witness :
    (run env3).result = .ok false ∧
    (∀ e ∈ (run env3).trace, e.isCreation = false) ∧
    "[错误] 仓库名称不能为空" ∈ (run env3).output :=
  C3_empty_name env3 (by decide) (by decide)

/-- C6: whenever credential resolution reaches the token branch with a
non-empty token, a 200 identity response with a `login` field makes the
Session's username exactly that field's value, while any other status
or a network failure makes `setup_auth` fail. -/
theorem C6_token_identity (env : Env)
    (hpath : tokenPathReached env = true)
    (htok : (pyStrip env.tokenInput).isEmpty = false) :
    (∀ l, env.identityResp = some (200, some l) →
      (setup_auth env (initSession env)).session.username = some l) ∧
    (∀ st fld, env.identityResp = some (st, fld) → st ≠ 200 →
      (setup_auth env (initSession env)).result = .ok false) ∧
    (env.identityResp = none →
      (setup_auth env (initSession env)).result = .ok false) := by
  obtain ⟨hres, hsess⟩ := setupAuth_tokenPath_eq env hpath
  refine ⟨?_, ?_, ?_⟩
  · intro l hresp
    rw [hsess]
    exact tokenPath_200 env _ htok l hresp
  · intro st fld hresp hst
    rw [hres]
    exact tokenPath_failStatus env _ htok st fld hresp hst
  · intro hresp
    rw [hres]
    exact tokenPath_failNet env _ htok hresp

/-- Witness for C6 at the concrete environment `env9`. -/
theorem C6_token_identity_witness :
    (∀ l, env9.identityResp = some (200, some l) →
      (setup_auth env9 (initSession env9)).session.username = some l) ∧
    (∀ st fld, env9.identityResp = some (st, fld) → st ≠ 200 →
      (setup_auth env9 (initSession env9)).result = .ok false) ∧
    (env9.identityResp = none →
      (setup_auth env9 (initSession env9)).result = .ok false) :=
  C6_token_identity env9 (by decide) (by decide)

/-- C7: when the helper CLI presence probe fails, no helper subcommand
(auth-status check, login, user query, or creation subcommand) is
invoked for the remainder of the run, and credential resolution
proceeds directly to the token prompt. -/
theorem C7_helper_absent (env : Env) (h : env.ghVersionOk = false) :
    (∀ e ∈ (run env).trace, e.isHelperSub = false) ∧
    Event.promptToken ∈ (run env).trace := by
  obtain ⟨hres, hsess, htr, hout⟩ := run_components env
  have huse : (initSession env).use_gh_cli = false := by
    simp [initSession, h]
  obtain ⟨hall, hprompt⟩ := setupAuth_no_helper env (initSession env) huse
  have hsetup : ∀ e ∈ (setup_auth env (initSession env)).trace,
      e.isHelperSub = false := by
    intro e he
    simpa using List.all_eq_true.mp hall e he
  have hmain : (∀ e ∈ (create_repository env (initSession env)).trace,
      e.isHelperSub = false) ∧
      Event.promptToken ∈
        (create_repository env (initSession env)).trace := by
    cases hsr : (setup_auth env (initSession env)).result with
    | error eu =>
        cases eu
        rw [createRepo_crash env _ hsr]
        exact ⟨hsetup, hprompt⟩
    | ok b =>
        cases b with
        | false =>
            rw [createRepo_authFail env _ hsr]
            exact ⟨hsetup, hprompt⟩
        | true =>
            rw [createRepo_authOk env _ hsr]
            have hcond :
                ((setup_auth env (initSession env)).session.use_gh_cli &&
                  pyFalsyOpt
                    (setup_auth env (initSession env)).session.token) =
                  false := by
              rw [setupAuth_use env _, huse]
              rfl
            have hev :
                (creationStep env
                  (setup_auth env (initSession env)).session
                  (mkInfo env)).2 =
                [.apiRepoPost
                  (setup_auth env (initSession env)).session.token
                  (apiBody (mkInfo env).name (mkInfo env).description
                    (mkInfo env).is_private)] := by
              rw [creationStep_events, hcond]
              simp
            cases hname : (pyStrip env.repoNameInput).isEmpty with
            | true =>
                rw [afterAuth_empty env _ hname]
                constructor
                · intro e he
                  rcases List.mem_append.mp he with he1 | he2
                  · exact hsetup e he1
                  · rw [List.mem_singleton.mp he2]
                    rfl
                · exact List.mem_append.mpr (Or.inl hprompt)
            | false =>
                cases hsucc : (creationStep env
                    (setup_auth env (initSession env)).session
                    (mkInfo env)).1.1 with
                | false =>
                    rw [afterAuth_failCreate env _ hname hsucc]
                    constructor
                    · intro e he
                      rcases List.mem_append.mp he with he12 | he3
                      · rcases List.mem_append.mp he12 with he1 | he2
                        · exact hsetup e he1
                        · rw [List.mem_singleton.mp he2]
                          rfl
                      · rw [hev] at he3
                        rw [List.mem_singleton.mp he3]
                        rfl
                    · exact List.mem_append.mpr (Or.inl
                        (List.mem_append.mpr (Or.inl hprompt)))
                | true =>
                    rw [afterAuth_success env _ hname hsucc]
                    constructor
                    · intro e he
                      rcases List.mem_append.mp he with he123 | he4
                      · rcases List.mem_append.mp he123 with he12 | he3
                        · rcases List.mem_append.mp he12 with he1 | he2
                          · exact hsetup e he1
                          · rw [List.mem_singleton.mp he2]
                            rfl
                        · rw [hev] at he3
                          rw [List.mem_singleton.mp he3]
                          rfl
                      · rw [clipboardStep_events env _ e he4]
                        rfl
                    · exact List.mem_append.mpr (Or.inl
                        (List.mem_append.mpr (Or.inl
                          (List.mem_append.mpr (Or.inl hprompt)))))
  constructor
  · intro e he
    rw [htr] at he
    rcases List.mem_cons.mp he with rfl | he2
    · rfl
    · exact hmain.1 e he2
  · rw [htr]
    exact List.mem_cons.mpr (Or.inr hmain.2)

/-- Witness for C7 at the concrete environment `env9` (helper absent). -/
theorem C7_helper_absent_witness :
    (∀ e ∈ (run env9).trace, e.isHelperSub = false) ∧
    Event.promptToken ∈ (run env9).trace :=
  C7_helper_absent env9 (by decide)

lemma creationStep_api (env : Env) (s : Session) (info : RepoInfo)
    (hcond : (s.use_gh_cli && pyFalsyOpt s.token) = false) :
    creationStep env s info =
      create_repo_with_api env s.token info.name info.description
        info.is_private := by
  unfold creationStep
  rw [hcond]
  simp

lemma creationStep_gh (env : Env) (s : Session) (info : RepoInfo)
    (hcond : (s.use_gh_cli && pyFalsyOpt s.token) = true) :
    creationStep env s info =
      create_repo_with_gh env info.name info.description
        info.is_private := by
  unfold creationStep
  rw [hcond]
  simp

lemma afterAuth_session (env : Env) (a : AuthOut) :
    (afterAuth env a).session = a.session := by
  unfold afterAuth
  repeat' (first | split | dsimp only)

lemma run_no_creation (env : Env)
    (h : ¬(setup_auth env (initSession env)).result = .ok true ∨
      (pyStrip env.repoNameInput).isEmpty = true) :
    ∀ e ∈ (run env).trace, e.isCreation = false := by
  obtain ⟨hres, hsess, htr, hout⟩ := run_components env
  have hmain : ∀ e ∈ (create_repository env (initSession env)).trace,
      e.isCreation = false := by
    cases hsr : (setup_auth env (initSession env)).result with
    | error eu =>
        cases eu
        rw [createRepo_crash env _ hsr]
        exact setupAuth_no_creation env _
    | ok b =>
        cases b with
        | false =>
            rw [createRepo_authFail env _ hsr]
            exact setupAuth_no_creation env _
        | true =>
            have hname : (pyStrip env.repoNameInput).isEmpty = true := by
              rcases h with h | h
              · exact absurd hsr h
              · exact h
            rw [createRepo_authOk env _ hsr, afterAuth_empty env _ hname]
            intro e he
            rcases List.mem_append.mp he with he1 | he2
            · exact setupAuth_no_creation env _ e he1
            · rw [List.mem_singleton.mp he2]
              rfl
  intro e he
  rw [htr] at he
  rcases List.mem_cons.mp he with rfl | he2
  · rfl
  · exact hmain e he2

lemma run_reached_shape (env : Env)
    (hauth : (setup_auth env (initSession env)).result = .ok true)
    (hname : (pyStrip env.repoNameInput).isEmpty = false) :
    (run env).session = (setup_auth env (initSession env)).session ∧
    ((creationStep env (setup_auth env (initSession env)).session
        (mkInfo env)).1.1 = true →
      (run env).result = .ok true ∧
      (run env).trace = .ghVersionProbe ::
        ((setup_auth env (initSession env)).trace ++ [.promptRepoName] ++
          (creationStep env (setup_auth env (initSession env)).session
            (mkInfo env)).2 ++
          (clipboardStep env
            (cloneUrl
              (setup_auth env (initSession env)).session.username
              (pyStrip env.repoNameInput))).1) ∧
      (run env).output =
        (if env.clipboardAvailable then []
         else ["[警告] pyperclip 模块未安装，将无法自动复制到剪贴板"]) ++
          ((setup_auth env (initSession env)).output ++
            echoBlock (mkInfo env) ++
            ["[成功] 仓库创建成功!",
             "仓库地址: " ++
               cloneUrl
                 (setup_auth env (initSession env)).session.username
                 (pyStrip env.repoNameInput)] ++
            (clipboardStep env
              (cloneUrl
                (setup_auth env (initSession env)).session.username
                (pyStrip env.repoNameInput))).2)) ∧
    ((creationStep env (setup_auth env (initSession env)).session
        (mkInfo env)).1.1 = false →
      (run env).result = .ok false ∧
      (run env).trace = .ghVersionProbe ::
        ((setup_auth env (initSession env)).trace ++ [.promptRepoName] ++
          (creationStep env (setup_auth env (initSession env)).session
            (mkInfo env)).2) ∧
      (run env).output =
        (if env.clipboardAvailable then []
         else ["[警告] pyperclip 模块未安装，将无法自动复制到剪贴板"]) ++
          ((setup_auth env (initSession env)).output ++
            echoBlock (mkInfo env) ++
            ["[错误] 仓库创建失败: " ++
              pyOptStr (creationStep env
                (setup_auth env (initSession env)).session
                (mkInfo env)).1.2])) := by
  obtain ⟨hres, hsess, htr, hout⟩ := run_components env
  rw [createRepo_authOk env _ hauth] at hres hsess htr hout
  refine ⟨?_, fun hsucc => ?_, fun hfail => ?_⟩
  · rw [hsess, afterAuth_session]
  · rw [afterAuth_success env _ hname hsucc] at hres htr hout
    exact ⟨by rw [hres], by rw [htr], by rw [hout]⟩
  · rw [afterAuth_failCreate env _ hname hfail] at hres htr hout
    exact ⟨by rw [hres], by rw [htr], by rw [hout]⟩

lemma creation_event_reached (env : Env)
    (h : ∃ e ∈ (run env).trace, e.isCreation = true) :
    (setup_auth env (initSession env)).result = .ok true ∧
    (pyStrip env.repoNameInput).isEmpty = false := by
  by_cases hauth : (setup_auth env (initSession env)).result = .ok true
  · by_cases hname : (pyStrip env.repoNameInput).isEmpty = true
    · obtain ⟨e, he, hce⟩ := h
      have hno := run_no_creation env (Or.inr hname) e he
      simp [hno] at hce
    · exact ⟨hauth, Bool.eq_false_iff.mpr hname⟩
  · obtain ⟨e, he, hce⟩ := h
    have hno := run_no_creation env (Or.inl hauth) e he
    simp [hno] at hce

lemma run_creation_mem (env : Env)
    (hauth : (setup_auth env (initSession env)).result = .ok true)
    (hname : (pyStrip env.repoNameInput).isEmpty = false) :
    ∀ x ∈ (creationStep env (setup_auth env (initSession env)).session
      (mkInfo env)).2, x ∈ (run env).trace := by
  obtain ⟨hsess, hsuc, hfal⟩ := run_reached_shape env hauth hname
  cases hs : (creationStep env (setup_auth env (initSession env)).session
      (mkInfo env)).1.1 with
  | false =>
      obtain ⟨_, htr, _⟩ := hfal hs
      intro x hx
      rw [htr]
      exact List.mem_cons.mpr (Or.inr (List.mem_append.mpr (Or.inr hx)))
  | true =>
      obtain ⟨_, htr, _⟩ := hsuc hs
      intro x hx
      rw [htr]
      exact List.mem_cons.mpr (Or.inr (List.mem_append.mpr
        (Or.inl (List.mem_append.mpr (Or.inr hx)))))

lemma run_creation_only (env : Env)
    (hauth : (setup_auth env (initSession env)).result = .ok true)
    (hname : (pyStrip env.repoNameInput).isEmpty = false) :
    ∀ x ∈ (run env).trace, x.isCreation = true →
      x ∈ (creationStep env (setup_auth env (initSession env)).session
        (mkInfo env)).2 := by
  obtain ⟨hsess, hsuc, hfal⟩ := run_reached_shape env hauth hname
  cases hs : (creationStep env (setup_auth env (initSession env)).session
      (mkInfo env)).1.1 with
  | false =>
      obtain ⟨_, htr, _⟩ := hfal hs
      intro x hx hcx
      rw [htr] at hx
      rcases List.mem_cons.mp hx with rfl | hx2
      · simp [Event.isCreation] at hcx
      · rcases List.mem_append.mp hx2 with hx3 | hx4
        · rcases List.mem_append.mp hx3 with hx5 | hx6
          · have := setupAuth_no_creation env _ x hx5
            simp [this] at hcx
          · rw [List.mem_singleton.mp hx6] at hcx
            simp [Event.isCreation] at hcx
        · exact hx4
  | true =>
      obtain ⟨_, htr, _⟩ := hsuc hs
      intro x hx hcx
      rw [htr] at hx
      rcases List.mem_cons.mp hx with rfl | hx2
      · simp [Event.isCreation] at hcx
      · rcases List.mem_append.mp hx2 with hx3 | hcl
        · rcases List.mem_append.mp hx3 with hx5 | hx6
          · rcases List.mem_append.mp hx5 with hx7 | hx8
            · have := setupAuth_no_creation env _ x hx7
              simp [this] at hcx
            · rw [List.mem_singleton.mp hx8] at hcx
              simp [Event.isCreation] at hcx
          · exact hx6
        · rw [clipboardStep_events env _ x hcl] at hcx
          simp [Event.isCreation] at hcx

/-- C2: whenever a creation call is made, the helper-CLI transport is
the one invoked exactly when the helper CLI is available and no token
was collected during credential resolution; in every other case the
direct API transport is invoked, and the two transports are never both
invoked. -/
theorem C2_transport_choice (env : Env)
    (hcre : ∃ e ∈ (run env).trace, e.isCreation = true) :
    ((∃ cmd, Event.ghRepoCreate cmd ∈ (run env).trace) ↔
      (env.ghVersionOk = true ∧ (run env).session.token = none)) ∧
    (¬(env.ghVersionOk = true ∧ (run env).session.token = none) →
      ∃ tk b, Event.apiRepoPost tk b ∈ (run env).trace) ∧
    ¬((∃ cmd, Event.ghRepoCreate cmd ∈ (run env).trace) ∧
      (∃ tk b, Event.apiRepoPost tk b ∈ (run env).trace)) := by
  obtain ⟨hauth, hname⟩ := creation_event_reached env hcre
  obtain ⟨hsess, hsuc, hfal⟩ := run_reached_shape env hauth hname
  have hmem := run_creation_mem env hauth hname
  have honly := run_creation_only env hauth hname
  have hc2 := creationStep_events env
    (setup_auth env (initSession env)).session (mkInfo env)
  have huse : (setup_auth env (initSession env)).session.use_gh_cli =
      env.ghVersionOk := by
    rw [setupAuth_use]
    rfl
  have htokfact :
      (pyFalsyOpt (setup_auth env (initSession env)).session.token = true ∧
        (setup_auth env (initSession env)).session.token = none) ∨
      (pyFalsyOpt (setup_auth env (initSession env)).session.token = false ∧
        (setup_auth env (initSession env)).session.token ≠ none) := by
    rcases setupAuth_ok_cases env hauth with
      ⟨_, _, h3, _⟩ | ⟨_, _, u, hu, _, h3, h4, _⟩
    · left
      rw [h3]
      exact ⟨rfl, rfl⟩
    · right
      rw [h3]
      constructor
      · simpa [pyFalsyOpt] using h4
      · simp
  have hcondiff :
      ((setup_auth env (initSession env)).session.use_gh_cli &&
        pyFalsyOpt (setup_auth env (initSession env)).session.token) = true ↔
      (env.ghVersionOk = true ∧
        (setup_auth env (initSession env)).session.token = none) := by
    rw [huse]
    rcases htokfact with ⟨h1, h2⟩ | ⟨h1, h2⟩
    · rw [h1, h2]
      simp
    · rw [h1]
      simp [h2]
  have hghmem : (∃ cmd, Event.ghRepoCreate cmd ∈ (run env).trace) ↔
      ((setup_auth env (initSession env)).session.use_gh_cli &&
        pyFalsyOpt (setup_auth env (initSession env)).session.token) =
        true := by
    constructor
    · rintro ⟨cmd, hcmd⟩
      have hin := honly _ hcmd rfl
      rw [hc2] at hin
      by_contra hcond
      rw [if_neg hcond] at hin
      exact absurd (List.mem_singleton.mp hin) (by simp)
    · intro hcond
      have hx : Event.ghRepoCreate (ghCmd (mkInfo env).name
          (mkInfo env).description (mkInfo env).is_private) ∈
          (creationStep env (setup_auth env (initSession env)).session
            (mkInfo env)).2 := by
        rw [hc2, if_pos hcond]
        exact List.mem_singleton.mpr rfl
      exact ⟨_, hmem _ hx⟩
  refine ⟨?_, ?_, ?_⟩
  · rw [hghmem, hsess]
    exact hcondiff
  · intro hno
    rw [hsess] at hno
    have hcond : ((setup_auth env (initSession env)).session.use_gh_cli &&
        pyFalsyOpt (setup_auth env (initSession env)).session.token) =
        false := by
      rw [Bool.eq_false_iff]
      intro hx
      exact hno (hcondiff.mp hx)
    have hx : Event.apiRepoPost
        (setup_auth env (initSession env)).session.token
        (apiBody (mkInfo env).name (mkInfo env).description
          (mkInfo env).is_private) ∈
        (creationStep env (setup_auth env (initSession env)).session
          (mkInfo env)).2 := by
      rw [hc2, if_neg (by simp [hcond])]
      exact List.mem_singleton.mpr rfl
    exact ⟨_, _, hmem _ hx⟩
  · rintro ⟨hg, tk, b, hapi⟩
    have hcond := hghmem.mp hg
    have hin := honly _ hapi rfl
    rw [hc2, if_pos hcond] at hin
    exact absurd (List.mem_singleton.mp hin) (by simp)

lemma run_ok_true_reached (env : Env)
    (hok : (run env).result = .ok true) :
    (setup_auth env (initSession env)).result = .ok true ∧
    (pyStrip env.repoNameInput).isEmpty = false ∧
    (creationStep env (setup_auth env (initSession env)).session
      (mkInfo env)).1.1 = true := by
  obtain ⟨hres, hsess, htr, hout⟩ := run_components env
  cases hsr : (setup_auth env (initSession env)).result with
  | error eu =>
      cases eu
      rw [createRepo_crash env _ hsr] at hres
      rw [hres] at hok
      simp at hok
  | ok b =>
      cases b with
      | false =>
          rw [createRepo_authFail env _ hsr] at hres
          rw [hres] at hok
          simp at hok
      | true =>
          by_cases hname : (pyStrip env.repoNameInput).isEmpty = true
          · rw [createRepo_authOk env _ hsr,
              afterAuth_empty env _ hname] at hres
            rw [hres] at hok
            simp at hok
          · have hname' := Bool.eq_false_iff.mpr hname
            refine ⟨rfl, hname', ?_⟩
            obtain ⟨_, _, hfal⟩ := run_reached_shape env hsr hname'
            cases hsucc : (creationStep env
                (setup_auth env (initSession env)).session
                (mkInfo env)).1.1 with
            | false =>
                obtain ⟨hr2, _, _⟩ := hfal hsucc
                rw [hr2] at hok
                simp at hok
            | true => rfl

/-- C5: every successful run reports the clone URL as the literal
concatenation of the canonical prefix, the session's username, the
repository name and the `.git` suffix, and after the creation call the
only further external interaction is the clipboard copy (no remote
verification). -/
theorem C5_clone_url (env : Env) (u : String)
    (hok : (run env).result = .ok true)
    (huser : (run env).session.username = some u) :
    ("仓库地址: " ++ ("https://github.com/" ++ u ++ "/" ++
      pyStrip env.repoNameInput ++ ".git")) ∈ (run env).output ∧
    ∃ t1 e t2, (run env).trace = t1 ++ e :: t2 ∧ e.isCreation = true ∧
      ∀ e2 ∈ t2, ∃ u2, e2 = Event.clipboardCopy u2 := by
  obtain ⟨hauth, hname, hsucc⟩ := run_ok_true_reached env hok
  obtain ⟨hsess, hsuc, _⟩ := run_reached_shape env hauth hname
  obtain ⟨_, htr, hout⟩ := hsuc hsucc
  rw [hsess] at huser
  constructor
  · rw [hout, huser]
    simp [cloneUrl, pyOptStr]
  · have hc2 := creationStep_events env
      (setup_auth env (initSession env)).session (mkInfo env)
    have hev : ∃ ev, (creationStep env
        (setup_auth env (initSession env)).session (mkInfo env)).2 =
        [ev] ∧ ev.isCreation = true := by
      rw [hc2]
      split
      · exact ⟨_, rfl, rfl⟩
      · exact ⟨_, rfl, rfl⟩
    obtain ⟨ev, hev1, hev2⟩ := hev
    refine ⟨Event.ghVersionProbe ::
      ((setup_auth env (initSession env)).trace ++ [.promptRepoName]),
      ev,
      (clipboardStep env
        (cloneUrl (setup_auth env (initSession env)).session.username
          (pyStrip env.repoNameInput))).1, ?_, hev2, ?_⟩
    · rw [htr, hev1]
      simp [List.append_assoc]
    · intro e2 he2
      exact ⟨_, clipboardStep_events env _ e2 he2⟩

/-- Witness for C5 at the concrete environment `env9`. -/
theorem C5_clone_url_witness :
    ("仓库地址: " ++ ("https://github.com/" ++ "alice" ++ "/" ++
      pyStrip env9.repoNameInput ++ ".git")) ∈ (run env9).output ∧
    ∃ t1 e t2, (run env9).trace = t1 ++ e :: t2 ∧ e.isCreation = true ∧
      ∀ e2 ∈ t2, ∃ u2, e2 = Event.clipboardCopy u2 :=
  C5_clone_url env9 "alice" (by decide) (by decide)

/-- The environment witnessing C2 and C4: as `env9` but the creation
endpoint answers 422 with a message. -/
def env4 : Env :=
  { ghVersionOk := false, ghAuthOk := false, loginChoiceInput := "",
    ghLoginOk := false, ghUserResult := none, tokenInput := "abc123",
    identityResp := some (200, some "alice"), identityErrText := "",
    repoNameInput := "demo", ghCreateResult := none,
    apiCreateResp := some (422, some "name already exists"),
    apiCreateErrText := "",
    clipboardAvailable := false, clipboardOk := false,
    clipboardErrText := "" }

/-- C4: whenever the API creation call is made and returns a status
other than 201, the run fails and the reported error line carries the
numeric status code together with the platform message field (or the
default `未知错误` text when the field is absent). -/
theorem C4_api_failure (env : Env) (st : Nat) (fld : Option String)
    (hresp : env.apiCreateResp = some (st, fld)) (hst : st ≠ 201)
    (hapi : ∃ tk b, Event.apiRepoPost tk b ∈ (run env).trace) :
    (run env).result = .ok false ∧
    ("[错误] 仓库创建失败: " ++ ("创建失败 (" ++ toString st ++ "): " ++
      fld.getD "未知错误")) ∈ (run env).output ∧
    ∃ pre suf, ("创建失败 (" ++ toString st ++ "): " ++
      fld.getD "未知错误") = pre ++ toString st ++ suf := by
  obtain ⟨tk, b, hmemapi⟩ := hapi
  have hcre : ∃ e ∈ (run env).trace, e.isCreation = true :=
    ⟨_, hmemapi, rfl⟩
  obtain ⟨hauth, hname⟩ := creation_event_reached env hcre
  obtain ⟨hsess, hsuc, hfal⟩ := run_reached_shape env hauth hname
  have honly := run_creation_only env hauth hname
  have hc2 := creationStep_events env
    (setup_auth env (initSession env)).session (mkInfo env)
  have hcond : ((setup_auth env (initSession env)).session.use_gh_cli &&
      pyFalsyOpt (setup_auth env (initSession env)).session.token) =
      false := by
    rw [Bool.eq_false_iff]
    intro hx
    have hin := honly _ hmemapi rfl
    rw [hc2, if_pos hx] at hin
    exact absurd (List.mem_singleton.mp hin) (by simp)
  have hcall : creationStep env
      (setup_auth env (initSession env)).session (mkInfo env) =
      ((false, some ("创建失败 (" ++ toString st ++ "): " ++
          fld.getD "未知错误")),
       [.apiRepoPost (setup_auth env (initSession env)).session.token
         (apiBody (mkInfo env).name (mkInfo env).description
           (mkInfo env).is_private)]) := by
    rw [creationStep_api env _ _ hcond]
    exact apiCall_fail env _ _ _ _ st fld hresp hst
  have hfail1 : (creationStep env
      (setup_auth env (initSession env)).session (mkInfo env)).1.1 =
      false := by
    rw [hcall]
  obtain ⟨hres, htr, hout⟩ := hfal hfail1
  refine ⟨hres, ?_, ?_⟩
  · rw [hout, hcall]
    simp [pyOptStr]
  · exact ⟨"创建失败 (", "): " ++ fld.getD "未知错误",
      by rw [String.append_assoc]⟩

/-- Witness for C4 at the concrete environment `env4`. -/
theorem C4_api_failure_witness :
    (run env4).result = .ok false ∧
    ("[错误] 仓库创建失败: " ++ ("创建失败 (" ++ toString (422 : Nat) ++
      "): " ++ (some "name already exists").getD "未知错误")) ∈
      (run env4).output ∧
    ∃ pre suf, ("创建失败 (" ++ toString (422 : Nat) ++ "): " ++
      (some "name already exists").getD "未知错误") =
      pre ++ toString (422 : Nat) ++ suf :=
  C4_api_failure env4 422 (some "name already exists") (by decide)
    (by decide)
    ⟨some "abc123", apiBody "demo" "1.0" false, by decide⟩

/-- Witness for C2 at the concrete environment `env4` (API transport
selected because a token was collected and the helper is absent). -/
theorem C2_transport_choice_witness :
    ((∃ cmd, Event.ghRepoCreate cmd ∈ (run env4).trace) ↔
      (env4.ghVersionOk = true ∧ (run env4).session.token = none)) ∧
    (¬(env4.ghVersionOk = true ∧ (run env4).session.token = none) →
      ∃ tk b, Event.apiRepoPost tk b ∈ (run env4).trace) ∧
    ¬((∃ cmd, Event.ghRepoCreate cmd ∈ (run env4).trace) ∧
      (∃ tk b, Event.apiRepoPost tk b ∈ (run env4).trace)) :=
  C2_transport_choice env4 (by decide)

/-- C8: once repository creation has succeeded, the run's outcome is
success regardless of the clipboard fields of the environment; a
clipboard-copy failure is reported only by the warning line plus the
manual-copy hint, and clipboard unavailability only by the manual-copy
hint. -/
theorem C8_clipboard (env : Env) (a b : Bool)
    (hauth : (setup_auth env (initSession env)).result = .ok true)
    (hname : (pyStrip env.repoNameInput).isEmpty = false)
    (hsucc : (creationStep env (setup_auth env (initSession env)).session
      (mkInfo env)).1.1 = true) :
    (run env).result = .ok true ∧
    (run (Env.mk env.ghVersionOk env.ghAuthOk env.loginChoiceInput
      env.ghLoginOk env.ghUserResult env.tokenInput env.identityResp
      env.identityErrText env.repoNameInput env.ghCreateResult
      env.apiCreateResp env.apiCreateErrText a b
      env.clipboardErrText)).result = .ok true ∧
    (env.clipboardAvailable = true → env.clipboardOk = false →
      ("[警告] 复制到剪贴板失败: " ++ env.clipboardErrText) ∈
        (run env).output ∧
      "请手动复制上面的地址" ∈ (run env).output) ∧
    (env.clipboardAvailable = false →
      "[提示] 请手动复制上面的地址" ∈ (run env).output) := by
  obtain ⟨hsess, hsuc, _⟩ := run_reached_shape env hauth hname
  obtain ⟨hres, htr, hout⟩ := hsuc hsucc
  have henv' : (run (Env.mk env.ghVersionOk env.ghAuthOk
      env.loginChoiceInput env.ghLoginOk env.ghUserResult env.tokenInput
      env.identityResp env.identityErrText env.repoNameInput
      env.ghCreateResult env.apiCreateResp env.apiCreateErrText a b
      env.clipboardErrText)).result = .ok true := by
    obtain ⟨_, hsuc', _⟩ := run_reached_shape
      (Env.mk env.ghVersionOk env.ghAuthOk env.loginChoiceInput
        env.ghLoginOk env.ghUserResult env.tokenInput env.identityResp
        env.identityErrText env.repoNameInput env.ghCreateResult
        env.apiCreateResp env.apiCreateErrText a b
        env.clipboardErrText) hauth hname
    exact (hsuc' hsucc).1
  refine ⟨hres, henv', fun hca hco => ?_, fun hca => ?_⟩
  · have hcl : ∀ url, (clipboardStep env url).2 =
        ["[警告] 复制到剪贴板失败: " ++ env.clipboardErrText,
         "请手动复制上面的地址"] := by
      intro url
      unfold clipboardStep
      rw [if_pos hca, if_neg (by simp [hco])]
    constructor
    · rw [hout, hcl]
      simp
    · rw [hout, hcl]
      simp
  · have hcl : ∀ url, (clipboardStep env url).2 =
        ["[提示] 请手动复制上面的地址"] := by
      intro url
      unfold clipboardStep
      rw [if_neg (by simp [hca])]
    rw [hout, hcl]
    simp

/-- The environment witnessing C8: as `env9` but with an available
clipboard whose copy operation raises. -/
def env8 : Env :=
  { ghVersionOk := false, ghAuthOk := false, loginChoiceInput := "",
    ghLoginOk := false, ghUserResult := none, tokenInput := "abc123",
    identityResp := some (200, some "alice"), identityErrText := "",
    repoNameInput := "demo", ghCreateResult := none,
    apiCreateResp := some (201, none), apiCreateErrText := "",
    clipboardAvailable := true, clipboardOk := false,
    clipboardErrText := "copy failed" }

/-- Witness for C8 at the concrete environment `env8`. -/
theorem C8_clipboard_witness :
    (run env8).result = .ok true ∧
    (run (Env.mk env8.ghVersionOk env8.ghAuthOk env8.loginChoiceInput
      env8.ghLoginOk env8.ghUserResult env8.tokenInput env8.identityResp
      env8.identityErrText env8.repoNameInput env8.ghCreateResult
      env8.apiCreateResp env8.apiCreateErrText false true
      env8.clipboardErrText)).result = .ok true ∧
    (env8.clipboardAvailable = true → env8.clipboardOk = false →
      ("[警告] 复制到剪贴板失败: " ++ env8.clipboardErrText) ∈
        (run env8).output ∧
      "请手动复制上面的地址" ∈ (run env8).output) ∧
    (env8.clipboardAvailable = false →
      "[提示] 请手动复制上面的地址" ∈ (run env8).output) :=
  C8_clipboard env8 false true (by decide) (by decide) (by decide)

end RepoCreator
